import Mathlib

/-!
Verification of the SmartStudyPlannerPro core: the task persistence layer
(`storage.js`), the derived-view helpers (`helpers.js`), the progress-screen
motivational-message ladder (`ProgressScreen.js`), and the creation-time form
validation (`AddTaskScreen.js`).

Modelling conventions:
* JavaScript numbers are modelled as exact rationals (`ℚ`); double rounding at
  the extremes of the IEEE range (overflow to ±∞ below `1e309`, underflow to 0
  above `1e-324`) is not modelled.  The special values NaN and ±Infinity that
  string-to-number conversion can produce are modelled explicitly by `JsNum`.
* `AsyncStorage` together with `JSON.stringify`/`JSON.parse` is a platform
  primitive, modelled as a single cell (`StoredVal`) holding either nothing
  (key absent, `getItem` returns null), a value that deserializes to a task
  list (JSON round-trip fidelity of the platform on plain data), or an
  unparseable value (`JSON.parse` throws).  An I/O failure of a write is
  modelled by the boolean parameter `ok` (whether `setItem` succeeds).
* Functions are pure; the source sorts a copy (`[...tasks].sort`), so purity
  of `sortByPriority` is faithful.
-/

namespace SSP

/-- A persisted task record, with the fields created by `AddTaskScreen.js`
(`id`, `subject`, `topic`, `studyTime`, `deadline`, `priority`, `completed`,
`createdAt`).  `priority` is `Option` because stored data may lack the field
(`a.priority?.toLowerCase()` in `helpers.js` guards for that); `deadline` and
`createdAt` are ISO strings in the source and stay opaque strings here. -/
structure Task where
  id : String
  subject : String
  topic : String
  studyTime : ℚ
  deadline : String
  priority : Option String
  completed : Bool
  createdAt : String
deriving DecidableEq

/-- The content of the single AsyncStorage key `@smart_study_planner_tasks`:
absent (`getItem` returns null), a value deserializing to a task list, or a
value on which `JSON.parse` throws. -/
inductive StoredVal where
  | absent
  | good (tasks : List Task)
  | corrupt
deriving DecidableEq

/-- `getTasks` from `storage.js`: `getItem`, then `JSON.parse` when non-null;
a null key yields `[]`, and a thrown parse error is caught and yields `[]`. -/
def getTasks : StoredVal → List Task
  | .absent => []
  | .good tasks => tasks
  | .corrupt => []

/-- `saveTasks` from `storage.js`: `JSON.stringify` the whole array and
`setItem` it, returning `true`; a thrown storage error (`ok = false`) is
caught, returns `false`, and leaves the stored value as it was. -/
def saveTasks (tasks : List Task) (ok : Bool) (st : StoredVal) : Bool × StoredVal :=
  if ok then (true, .good tasks) else (false, st)

/-- The partial-update object passed to `updateTask`; `none` means the field
is absent from the object.  The JS spread `{ ...task, ...updates }` overwrites
exactly the fields present in `updates`. -/
structure TaskUpdates where
  id : Option String := none
  subject : Option String := none
  topic : Option String := none
  studyTime : Option ℚ := none
  deadline : Option String := none
  priority : Option (Option String) := none
  completed : Option Bool := none
  createdAt : Option String := none
deriving DecidableEq

/-- The JS object spread `{ ...task, ...updates }`: each field present in
`updates` overwrites the task's field, every absent field is kept. -/
def spreadMerge (task : Task) (updates : TaskUpdates) : Task where
  id := updates.id.getD task.id
  subject := updates.subject.getD task.subject
  topic := updates.topic.getD task.topic
  studyTime := updates.studyTime.getD task.studyTime
  deadline := updates.deadline.getD task.deadline
  priority := updates.priority.getD task.priority
  completed := updates.completed.getD task.completed
  createdAt := updates.createdAt.getD task.createdAt

/-- `updateTask` from `storage.js`: read the collection, map over it replacing
the task whose `id === taskId` by `{ ...task, ...updates }`, save back. -/
def updateTask (taskId : String) (updates : TaskUpdates) (ok : Bool)
    (st : StoredVal) : Bool × StoredVal :=
  saveTasks ((getTasks st).map fun task =>
    if task.id = taskId then spreadMerge task updates else task) ok st

/-- `addTask` from `storage.js`: read the collection, append the new task,
save back. -/
def addTask (newTask : Task) (ok : Bool) (st : StoredVal) : Bool × StoredVal :=
  saveTasks (getTasks st ++ [newTask]) ok st

/-- `deleteTask` from `storage.js`: read the collection, keep the tasks with
`task.id !== taskId`, save back. -/
def deleteTask (taskId : String) (ok : Bool) (st : StoredVal) : Bool × StoredVal :=
  saveTasks ((getTasks st).filter fun task => task.id != taskId) ok st

/-- `Math.round` on an exact rational: JS rounds half toward positive
infinity, `round(x) = ⌊x + 1/2⌋`. -/
def jsRound (q : ℚ) : ℤ := ⌊q + 1/2⌋

/-- `calculateProgress` from `helpers.js`: `0` for an empty (or null) list,
otherwise `Math.round((completedTasks / tasks.length) * 100)` where
`completedTasks` counts the tasks with `completed` truthy. -/
def calculateProgress (tasks : List Task) : ℤ :=
  if tasks.length = 0 then 0
  else
    jsRound ((((tasks.filter fun task => task.completed).length : ℚ) /
      (tasks.length : ℚ)) * 100)

/-- `String.prototype.toLowerCase`, on the ASCII range: lower-case every
character. -/
def jsToLower (s : String) : String := ⟨s.data.map Char.toLower⟩

/-- The result of the JS property lookup `priorityOrder[key]` on the object
literal `priorityOrder = {high: 1, medium: 2, low: 3}` of `sortByPriority`
(`helpers.js`).  A bracket lookup walks the prototype chain, so besides the
three own keys the all-lowercase inherited members of `Object.prototype` are
found: `constructor` (the `Object` function) and `__proto__`
(`Object.prototype`), both truthy non-number objects.  No other inherited
member is reachable from a lowercased key (`hasOwnProperty`, `toString`,
`valueOf`, `isPrototypeOf`, ... all contain an uppercase letter).  Every
other key — including the key `undefined` produced by a missing priority —
yields `undefined`. -/
inductive PrioLookup where
  | num (n : Nat)
  | exotic
  | notFound
deriving DecidableEq

/-- `priorityOrder[p?.toLowerCase()]` from `sortByPriority` (`helpers.js`):
recognized keys give their own number, `constructor`/`__proto__` hit the
prototype chain (`.exotic`), everything else — including a missing
priority — is `undefined`. -/
def priorityLookup : Option String → PrioLookup
  | none => .notFound
  | some p =>
    if jsToLower p = "high" then .num 1
    else if jsToLower p = "medium" then .num 2
    else if jsToLower p = "low" then .num 3
    else if jsToLower p = "constructor" then .exotic
    else if jsToLower p = "__proto__" then .exotic
    else .notFound

/-- The comparator operand `priorityOrder[p?.toLowerCase()] || 4`: the
numbers 1–3 and the two truthy inherited objects survive `|| 4`; only
`undefined` falls back to `4`.  `some n` is a numeric operand; `none` stands
for an inherited object, whose numeric coercion inside the comparator's
subtraction is NaN. -/
def priorityOperand (p : Option String) : Option Nat :=
  match priorityLookup p with
  | .num n => some n
  | .exotic => none
  | .notFound => some 4

/-- Whether a priority avoids the prototype-chain hits, i.e. the comparator
operand is an actual number. -/
def protoSafe (p : Option String) : Bool := (priorityOperand p).isSome

/-- The rank ladder the spec ascribes to the lookup: High = 1, Medium = 2,
Low = 3, anything else (unrecognized or missing) = 4.  This follows the
spec's words; it agrees with the source operand `priorityOrder[...] || 4`
exactly on `protoSafe` priorities and disagrees at `constructor` and
`__proto__`, where the source yields a truthy object (see `priorityLookup`),
not the number 4. -/
def priorityRank : Option String → Nat
  | none => 4
  | some p =>
    if jsToLower p = "high" then 1
    else if jsToLower p = "medium" then 2
    else if jsToLower p = "low" then 3
    else 4

/-- The outcome `comparator(a, b) <= 0` of `sortByPriority`'s comparator
`(a, b) => priorityA - priorityB` as the sort consumes it: when both operands
are numbers this is an ordinary difference; when either operand is an
inherited object the subtraction is NaN, which `SortCompare` maps to `+0`,
so the pair is treated as equal (`<= 0` holds both ways around). -/
def taskLeB (a b : Task) : Bool :=
  match priorityOperand a.priority, priorityOperand b.priority with
  | some m, some n => decide (m ≤ n)
  | _, _ => true

/-- The preorder the sort consumes, as a `Prop`. -/
def taskLe (a b : Task) : Prop := taskLeB a b = true

instance : DecidableRel taskLe :=
  fun a b => inferInstanceAs (Decidable (taskLeB a b = true))

/-- The spec's rank comparator (a total preorder); it equals the source
relation `taskLe` on `protoSafe` priorities. -/
def rankLe (a b : Task) : Prop := priorityRank a.priority ≤ priorityRank b.priority

instance : DecidableRel rankLe :=
  fun a b => inferInstanceAs (Decidable (priorityRank a.priority ≤ priorityRank b.priority))

instance : IsTotal Task rankLe := ⟨fun _ _ => Nat.le_total _ _⟩

instance : IsTrans Task rankLe := ⟨fun _ _ _ h h2 => Nat.le_trans h h2⟩

/-- `sortByPriority` from `helpers.js`: `[...tasks].sort(comparator)`.
When every priority is `protoSafe` the comparator is a consistent numeric
comparator and the ECMAScript stable sort is modelled exactly by the stable
`List.insertionSort` under its preorder.  When a prototype-chain hit makes
the comparator return NaN, `SortCompare` treats that comparison as equal
(`+0`) but the comparator is inconsistent and ECMAScript leaves the overall
order implementation-defined; the model fixes the universal per-comparison
engine behavior (NaN means keep the pair's relative order inside a stable
sort), which is exact for two-element lists: a stable sort never swaps a
pair whose only comparison reports equality. -/
def sortByPriority (tasks : List Task) : List Task :=
  tasks.insertionSort taskLe

/-- The icon/message pair produced by `getMotivationalMessage` in
`ProgressScreen.js` (the `emoji` and `message` fields of the returned
object). -/
structure Motivation where
  emoji : String
  message : String
deriving DecidableEq

/-- `getMotivationalMessage` from `ProgressScreen.js`: the six-tier ladder on
the progress percentage (`=== 100`, `>= 75`, `>= 50`, `>= 25`, `> 0`, else). -/
def getMotivationalMessage (progress : ℤ) : Motivation :=
  if progress = 100 then ⟨"🏆", "Perfect! You\x27ve completed all tasks!"⟩
  else if progress ≥ 75 then ⟨"🔥", "Almost there! Keep pushing!"⟩
  else if progress ≥ 50 then ⟨"💪", "Great progress! Stay focused!"⟩
  else if progress ≥ 25 then ⟨"📈", "Good start! Keep going!"⟩
  else if progress > 0 then ⟨"🚀", "You\x27ve started! Let\x27s build momentum!"⟩
  else ⟨"📋", "Add tasks to start tracking progress!"⟩

/-- A concrete task used in witnesses and examples: id `n`, priority `p`,
completion flag `c`, all other fields fixed. -/
def exTask (n : Nat) (p : Option String) (c : Bool) : Task where
  id := toString n
  subject := "s"
  topic := "t"
  studyTime := 1
  deadline := "d"
  priority := p
  completed := c
  createdAt := "z"

/-- The special-value-aware result of a JavaScript string-to-number
conversion: NaN, ±Infinity, or an exact finite value. -/
inductive JsNum where
  | nan
  | posInf
  | negInf
  | finite (q : ℚ)
deriving DecidableEq

/-- The ASCII JS whitespace characters: space, tab, line feed, carriage
return, vertical tab, form feed. -/
def jsWhitespace (c : Char) : Bool :=
  c == ' ' || c == '\t' || c == '\n' || c == '\r' || c == '\x0b' || c == '\x0c'

/-- `String.prototype.trim`: strip whitespace from both ends. -/
def jsTrim (s : String) : String :=
  ⟨((s.data.dropWhile jsWhitespace).reverse.dropWhile jsWhitespace).reverse⟩

/-- The value of a string of decimal digits. -/
def digitsToNat (ds : List Char) : Nat :=
  ds.foldl (fun n c => 10 * n + (c.toNat - '0'.toNat)) 0

/-- The value of a single hexadecimal digit. -/
def hexDigitVal (c : Char) : Nat :=
  if c.isDigit then c.toNat - '0'.toNat
  else if 'a' ≤ c && c ≤ 'f' then c.toNat - 'a'.toNat + 10
  else c.toNat - 'A'.toNat + 10

def isHexDigitChar (c : Char) : Bool :=
  c.isDigit || ('a' ≤ c && c ≤ 'f') || ('A' ≤ c && c ≤ 'F')

def isOctDigitChar (c : Char) : Bool := '0' ≤ c && c ≤ '7'

def isBinDigitChar (c : Char) : Bool := c == '0' || c == '1'

/-- `10^e` as an exact rational, for a signed exponent. -/
def qPow10 : ℤ → ℚ
  | .ofNat n => (10 : ℚ) ^ n
  | .negSucc n => 1 / (10 : ℚ) ^ (n + 1)

/-- Parse an ECMAScript `ExponentPart` body (optional sign then at least one
digit), returning the signed exponent and the unconsumed rest. -/
def parseSignedExp (l : List Char) : Option (ℤ × List Char) :=
  let sgn : ℤ := match l with
    | '-' :: _ => -1
    | _ => 1
  let l2 := match l with
    | '+' :: r => r
    | '-' :: r => r
    | _ => l
  let ds := l2.takeWhile Char.isDigit
  if ds.isEmpty then none
  else some (sgn * (digitsToNat ds : ℤ), l2.dropWhile Char.isDigit)

/-- Parse the longest `DecimalDigits [. DecimalDigits] [ExponentPart]` prefix
(the ECMAScript unsigned decimal literal, without `Infinity`), returning its
exact value and the unconsumed rest; `none` when there is no digit in either
the integer or the fraction part. -/
def parseUnsignedDecimal (l : List Char) : Option (ℚ × List Char) :=
  let ints := l.takeWhile Char.isDigit
  let r1 := l.dropWhile Char.isDigit
  let fracs := match r1 with
    | '.' :: r => r.takeWhile Char.isDigit
    | _ => []
  let r2 := match r1 with
    | '.' :: r => r.dropWhile Char.isDigit
    | _ => r1
  if ints.isEmpty && fracs.isEmpty then none
  else
    let mantissa : ℚ :=
      (digitsToNat ints : ℚ) + (digitsToNat fracs : ℚ) / (10 : ℚ) ^ fracs.length
    let expRes : Option (ℤ × List Char) := match r2 with
      | 'e' :: rest => parseSignedExp rest
      | 'E' :: rest => parseSignedExp rest
      | _ => none
    match expRes with
    | some (e, r3) => some (mantissa * qPow10 e, r3)
    | none => some (mantissa, r2)

/-- ECMAScript `parseFloat`: skip leading whitespace, read an optional sign,
then either `Infinity` or the longest decimal-literal prefix; NaN when no
numeric prefix exists.  Values are exact rationals (no double rounding). -/
def jsParseFloat (s : String) : JsNum :=
  let l := s.data.dropWhile jsWhitespace
  let sgn : ℚ := match l with
    | '-' :: _ => -1
    | _ => 1
  let l2 := match l with
    | '+' :: r => r
    | '-' :: r => r
    | _ => l
  match l2 with
  | 'I' :: 'n' :: 'f' :: 'i' :: 'n' :: 'i' :: 't' :: 'y' :: _ =>
    if sgn = 1 then .posInf else .negInf
  | _ =>
    match parseUnsignedDecimal l2 with
    | some (q, _) => .finite (sgn * q)
    | none => .nan

/-- An unsigned radix (`0x`/`0o`/`0b`) literal body for `Number`: all
remaining characters must be digits of the radix and at least one must be
present, else NaN. -/
def jsRadixLiteral (isRadixDigit : Char → Bool) (radix : Nat) (ds : List Char) : JsNum :=
  if !ds.isEmpty && ds.all isRadixDigit then
    .finite ((ds.foldl (fun n c => radix * n + hexDigitVal c) 0 : ℕ) : ℚ)
  else .nan

/-- `Number(string)` — the coercion the global `isNaN` applies to its
argument: trim, empty → 0, otherwise the whole trimmed string must be one
numeric literal (`[+|-] Infinity`, a signed decimal literal, or an unsigned
`0x`/`0o`/`0b` radix literal), else NaN.  Values are exact rationals. -/
def jsNumber (s : String) : JsNum :=
  let t := (jsTrim s).data
  if t.isEmpty then .finite 0
  else
    match t with
    | '0' :: 'x' :: ds => jsRadixLiteral isHexDigitChar 16 ds
    | '0' :: 'X' :: ds => jsRadixLiteral isHexDigitChar 16 ds
    | '0' :: 'o' :: ds => jsRadixLiteral isOctDigitChar 8 ds
    | '0' :: 'O' :: ds => jsRadixLiteral isOctDigitChar 8 ds
    | '0' :: 'b' :: ds => jsRadixLiteral isBinDigitChar 2 ds
    | '0' :: 'B' :: ds => jsRadixLiteral isBinDigitChar 2 ds
    | _ =>
      let sgn : ℚ := match t with
        | '-' :: _ => -1
        | _ => 1
      let t2 := match t with
        | '+' :: r => r
        | '-' :: r => r
        | _ => t
      match t2 with
      | ['I', 'n', 'f', 'i', 'n', 'i', 't', 'y'] =>
        if sgn = 1 then .posInf else .negInf
      | _ =>
        match parseUnsignedDecimal t2 with
        | some (q, []) => .finite (sgn * q)
        | _ => .nan

/-- `isNaN(x)`, on the result of the `Number` coercion. -/
def jsIsNaN : JsNum → Bool
  | .nan => true
  | _ => false

/-- The JS comparison `x <= 0` on a conversion result; false when `x` is NaN
(every comparison against NaN is false). -/
def jsLeZero : JsNum → Bool
  | .nan => false
  | .posInf => false
  | .negInf => true
  | .finite q => decide (q ≤ 0)

/-- The per-field error map built by `validateForm` in `AddTaskScreen.js`;
`none` means the field key was not added to `newErrors`. -/
structure FormErrors where
  subject : Option String := none
  topic : Option String := none
  studyTime : Option String := none
  deadline : Option String := none
deriving DecidableEq

/-- `validateForm` from `AddTaskScreen.js`.  `deadline` and `todayStart` are
millisecond timestamps: the source compares the `deadline` Date against
`new Date()` with hours, minutes, seconds and milliseconds zeroed — the start
of the current local calendar day — so `deadline < todayStart` holds exactly
when the deadline falls on an earlier local calendar day than today.  The
study-time check is the source's
`isNaN(studyTime) || parseFloat(studyTime) <= 0`. -/
def validateForm (subject topic studyTime : String) (deadline todayStart : ℤ) :
    FormErrors where
  subject := if jsTrim subject = "" then some "Subject name is required" else none
  topic := if jsTrim topic = "" then some "Topic name is required" else none
  studyTime :=
    if jsTrim studyTime = "" then some "Study time is required"
    else if jsIsNaN (jsNumber studyTime) || jsLeZero (jsParseFloat studyTime) then
      some "Please enter a valid positive number"
    else none
  deadline :=
    if deadline < todayStart then some "Deadline must be today or a future date"
    else none

/-- `Object.keys(newErrors).length === 0`: the form passes validation exactly
when no field error was recorded. -/
def formIsValid (e : FormErrors) : Bool :=
  e.subject.isNone && e.topic.isNone && e.studyTime.isNone && e.deadline.isNone

/-- On a `protoSafe` priority the source operand `priorityOrder[...] || 4`
is exactly the spec's rank. -/
theorem priorityOperand_protoSafe (p : Option String) (h : protoSafe p = true) :
    priorityOperand p = some (priorityRank p) := by
  cases p with
  | none => rfl
  | some s =>
    by_cases h1 : jsToLower s = "high"
    · simp [priorityOperand, priorityLookup, priorityRank, h1]
    · by_cases h2 : jsToLower s = "medium"
      · simp [priorityOperand, priorityLookup, priorityRank, h1, h2]
      · by_cases h3 : jsToLower s = "low"
        · simp [priorityOperand, priorityLookup, priorityRank, h1, h2, h3]
        · by_cases h4 : jsToLower s = "constructor"
          · exfalso
            simp [protoSafe, priorityOperand, priorityLookup, h1, h2, h3, h4] at h
          · by_cases h5 : jsToLower s = "__proto__"
            · exfalso
              simp [protoSafe, priorityOperand, priorityLookup, h1, h2, h3, h4, h5] at h
            · simp [priorityOperand, priorityLookup, priorityRank, h1, h2, h3, h4, h5]

/-- On `protoSafe` priorities the relation the sort consumes is the spec's
rank comparison. -/
theorem taskLe_iff_rankLe {a b : Task} (ha : protoSafe a.priority = true)
    (hb : protoSafe b.priority = true) : taskLe a b ↔ rankLe a b := by
  unfold taskLe taskLeB rankLe
  rw [priorityOperand_protoSafe a.priority ha, priorityOperand_protoSafe b.priority hb]
  simp

/-- `orderedInsert` only evaluates its relation between the inserted element
and members of the list, so relations that agree there insert identically. -/
theorem orderedInsert_congr {R S : Task → Task → Prop} [DecidableRel R]
    [DecidableRel S] (a : Task) (l : List Task)
    (h : ∀ b ∈ l, (R a b ↔ S a b)) :
    l.orderedInsert R a = l.orderedInsert S a := by
  induction l with
  | nil => rfl
  | cons b l ih =>
    rw [List.orderedInsert, List.orderedInsert]
    by_cases hr : R a b
    · rw [if_pos hr, if_pos ((h b (List.mem_cons_self b l)).mp hr)]
    · rw [if_neg hr, if_neg (fun hs => hr ((h b (List.mem_cons_self b l)).mpr hs)),
        ih fun c hc => h c (List.mem_cons_of_mem b hc)]

/-- `insertionSort` only evaluates its relation between members of the list,
so relations that agree on the list sort it identically. -/
theorem insertionSort_congr {R S : Task → Task → Prop} [DecidableRel R]
    [DecidableRel S] (l : List Task)
    (h : ∀ a ∈ l, ∀ b ∈ l, (R a b ↔ S a b)) :
    l.insertionSort R = l.insertionSort S := by
  induction l with
  | nil => rfl
  | cons a l ih =>
    rw [List.insertionSort, List.insertionSort,
      ih fun x hx y hy => h x (List.mem_cons_of_mem a hx) y (List.mem_cons_of_mem a hy)]
    exact orderedInsert_congr a _ fun b hb =>
      h a (List.mem_cons_self a l) b
        (List.mem_cons_of_mem a ((List.mem_insertionSort S).mp hb))

/-- Inserting a task into a list keeps the subsequence of any fixed rank:
the inserted task lands in front of the equal-rank tasks (which all came
after it in the original order) and behind every strictly smaller rank. -/
theorem filter_rank_orderedInsert (a : Task) (l : List Task) (v : Nat) :
    ((l.orderedInsert rankLe a).filter fun t => priorityRank t.priority == v) =
      if priorityRank a.priority = v
      then a :: l.filter fun t => priorityRank t.priority == v
      else l.filter fun t => priorityRank t.priority == v := by
  induction l with
  | nil =>
    rw [List.orderedInsert, List.filter_cons, List.filter_nil]
    split_ifs <;> simp_all
  | cons b l ih =>
    rw [List.orderedInsert]
    by_cases hab : rankLe a b
    · rw [if_pos hab]
      simp only [List.filter_cons]
      split_ifs <;> simp_all
    · rw [if_neg hab]
      have hba : priorityRank b.priority < priorityRank a.priority :=
        Nat.lt_of_not_le hab
      simp only [List.filter_cons]
      rw [ih]
      split_ifs <;> simp_all

/-- Stability of the rank sort, phrased per rank class: for every rank value,
the subsequence of tasks having that rank is exactly the same, in the same
order, before and after sorting. -/
theorem insertionSort_rank_filter (tasks : List Task) (v : Nat) :
    ((tasks.insertionSort rankLe).filter fun t => priorityRank t.priority == v) =
      tasks.filter fun t => priorityRank t.priority == v := by
  induction tasks with
  | nil => rfl
  | cons a l ih =>
    simp only [List.insertionSort]
    rw [filter_rank_orderedInsert, List.filter_cons]
    split_ifs with h1 h2 h2 <;> simp_all [ih]

/-- On a list of `protoSafe` priorities, `sortByPriority` is exactly the
stable sort under the spec's rank comparator. -/
theorem sortByPriority_eq_rank_sort (tasks : List Task)
    (h : ∀ t ∈ tasks, protoSafe t.priority = true) :
    sortByPriority tasks = tasks.insertionSort rankLe :=
  insertionSort_congr tasks fun a ha b hb => taskLe_iff_rankLe (h a ha) (h b hb)

/-- Claim C1: round-trip persistence — for every task sequence (including the
empty one), `saveTasks tasks` followed by `getTasks` returns a collection
equal to `tasks`, the same tasks with all fields preserved in the same order,
and the save reports success. -/
theorem C1_roundtrip (tasks : List Task) (st : StoredVal) :
    getTasks (saveTasks tasks true st).2 = tasks ∧ (saveTasks tasks true st).1 = true :=
  ⟨rfl, rfl⟩

/-- Claim C8: `getTasks` never fails the caller — it returns the persisted
collection in stored order when one is persisted, and the empty sequence both
when nothing has been persisted (missing/null key) and when the persisted
value cannot be parsed (`JSON.parse` threw and the error was caught). -/
theorem C8_getTasks_never_fails (tasks : List Task) :
    getTasks .absent = [] ∧ getTasks .corrupt = [] ∧ getTasks (.good tasks) = tasks :=
  ⟨rfl, rfl, rfl⟩

/-- Claim C4: not-found is a successful no-op — when no stored task has the
given id, `updateTask` and `deleteTask` both return `true` (the backing write
succeeding) and leave the stored collection unchanged, same tasks in the same
order. -/
theorem C4_notFound_noop (tasks : List Task) (taskId : String) (u : TaskUpdates)
    (h : ∀ t ∈ tasks, t.id ≠ taskId) :
    updateTask taskId u true (.good tasks) = (true, .good tasks) ∧
    deleteTask taskId true (.good tasks) = (true, .good tasks) := by
  have hmap : (tasks.map fun task =>
      if task.id = taskId then spreadMerge task u else task) = tasks := by
    have h2 : ∀ t ∈ tasks,
        (if t.id = taskId then spreadMerge t u else t) = t :=
      fun t ht => if_neg (h t ht)
    simpa using List.map_congr_left h2
  have hfil : (tasks.filter fun task => task.id != taskId) = tasks :=
    List.filter_eq_self.mpr fun t ht => by simp [bne_iff_ne, h t ht]
  constructor
  · simp only [updateTask, saveTasks, getTasks, hmap, if_pos]
  · simp only [deleteTask, saveTasks, getTasks, hfil, if_pos]

/-- Witness for C4 at a concrete store and a concrete absent id. -/
theorem C4_notFound_noop_witness :
    updateTask "zzz" {} true (.good [exTask 0 (some "High") false]) =
      (true, .good [exTask 0 (some "High") false]) ∧
    deleteTask "zzz" true (.good [exTask 0 (some "High") false]) =
      (true, .good [exTask 0 (some "High") false]) :=
  C4_notFound_noop [exTask 0 (some "High") false] "zzz" {} (by decide)

/-- Counterexample to claim C3 as stated: the claim's rank table makes
`"constructor"` rank 4 and `"High"` rank 1, so an ascending-by-rank sort of
[constructor, High] must put the High task first.  But the source lookup
`priorityOrder["constructor"]` hits `Object.prototype.constructor` — a truthy
object — so `|| 4` never applies, the comparator returns `Object - 1 = NaN`,
`SortCompare` treats the pair as equal, and the stable sort leaves the pair
in place: the High task is not moved ahead, and the output is not ascending
by the claimed rank. -/
theorem C3_sort_counterexample :
    priorityRank (some "constructor") = 4 ∧
    priorityRank (some "High") = 1 ∧
    priorityLookup (some "constructor") = PrioLookup.exotic ∧
    priorityOperand (some "constructor") = none ∧
    sortByPriority [exTask 0 (some "constructor") false, exTask 1 (some "High") false] =
      [exTask 0 (some "constructor") false, exTask 1 (some "High") false] := by
  decide

/-- Claim C3, amended: on every input list in which no task's lowercased
priority is an inherited `Object.prototype` key (`constructor`, `__proto__`)
— in particular on every list using only the documented values —
`sortByPriority` is a stable ascending sort by priority rank High = 1,
Medium = 2, Low = 3, anything else (unrecognized or missing) = 4: the
subsequence of every rank class is preserved (so any two tasks of equal rank
keep their original relative order), the output is sorted by ascending rank,
and the concrete input priority sequence [Low, High, Medium, High] sorts to
High, High, Medium, Low with the two Highs (ids 1 and 3) in their original
relative order. -/
theorem C3_sortByPriority_stable_ascending (tasks : List Task)
    (h : ∀ t ∈ tasks, protoSafe t.priority = true) :
    (∀ v : Nat,
      ((sortByPriority tasks).filter fun t => priorityRank t.priority == v) =
        tasks.filter fun t => priorityRank t.priority == v) ∧
    List.Sorted rankLe (sortByPriority tasks) ∧
    (priorityRank (some "High") = 1 ∧ priorityRank (some "Medium") = 2 ∧
      priorityRank (some "Low") = 3 ∧ priorityRank (some "Urgent") = 4 ∧
      priorityRank none = 4) ∧
    sortByPriority [exTask 0 (some "Low") false, exTask 1 (some "High") false,
        exTask 2 (some "Medium") false, exTask 3 (some "High") false] =
      [exTask 1 (some "High") false, exTask 3 (some "High") false,
        exTask 2 (some "Medium") false, exTask 0 (some "Low") false] := by
  have hs := sortByPriority_eq_rank_sort tasks h
  refine ⟨fun v => ?_, ?_, by decide, by decide⟩
  · rw [hs]
    exact insertionSort_rank_filter tasks v
  · rw [hs]
    exact List.sorted_insertionSort rankLe tasks

/-- Witness for the amended C3 at the claim's concrete input, whose
priorities are all `protoSafe`. -/
theorem C3_sortByPriority_stable_ascending_witness :
    (∀ v : Nat,
      ((sortByPriority [exTask 0 (some "Low") false, exTask 1 (some "High") false,
          exTask 2 (some "Medium") false, exTask 3 (some "High") false]).filter
        fun t => priorityRank t.priority == v) =
        ([exTask 0 (some "Low") false, exTask 1 (some "High") false,
          exTask 2 (some "Medium") false, exTask 3 (some "High") false].filter
          fun t => priorityRank t.priority == v)) ∧
    List.Sorted rankLe (sortByPriority [exTask 0 (some "Low") false,
      exTask 1 (some "High") false, exTask 2 (some "Medium") false,
      exTask 3 (some "High") false]) ∧
    (priorityRank (some "High") = 1 ∧ priorityRank (some "Medium") = 2 ∧
      priorityRank (some "Low") = 3 ∧ priorityRank (some "Urgent") = 4 ∧
      priorityRank none = 4) ∧
    sortByPriority [exTask 0 (some "Low") false, exTask 1 (some "High") false,
        exTask 2 (some "Medium") false, exTask 3 (some "High") false] =
      [exTask 1 (some "High") false, exTask 3 (some "High") false,
        exTask 2 (some "Medium") false, exTask 0 (some "Low") false] :=
  C3_sortByPriority_stable_ascending
    [exTask 0 (some "Low") false, exTask 1 (some "High") false,
      exTask 2 (some "Medium") false, exTask 3 (some "High") false] (by decide)

/-- Claim C2: update frame effect — `updateTask id {completed := true}` on a
stored collection rewrites only the `completed` field of the task whose id
matches; every other field of that task, every other task, and the order and
length of the collection are unchanged; and in general every field absent
from the partial-update object is untouched by the shallow merge. -/
theorem C2_update_frame (tasks : List Task) (taskId : String) :
    (updateTask taskId { completed := some true } true (.good tasks)).1 = true ∧
    (getTasks (updateTask taskId { completed := some true } true (.good tasks)).2).length
      = tasks.length ∧
    (∀ i : Nat, i < tasks.length →
      ∃ t t2 : Task, tasks[i]? = some t ∧
        (getTasks (updateTask taskId { completed := some true } true (.good tasks)).2)[i]?
          = some t2 ∧
        t2.id = t.id ∧ t2.subject = t.subject ∧ t2.topic = t.topic ∧
        t2.studyTime = t.studyTime ∧ t2.deadline = t.deadline ∧
        t2.priority = t.priority ∧ t2.createdAt = t.createdAt ∧
        t2.completed = (if t.id = taskId then true else t.completed)) ∧
    ∀ (t : Task) (u : TaskUpdates),
      (u.id = none → (spreadMerge t u).id = t.id) ∧
      (u.subject = none → (spreadMerge t u).subject = t.subject) ∧
      (u.topic = none → (spreadMerge t u).topic = t.topic) ∧
      (u.studyTime = none → (spreadMerge t u).studyTime = t.studyTime) ∧
      (u.deadline = none → (spreadMerge t u).deadline = t.deadline) ∧
      (u.priority = none → (spreadMerge t u).priority = t.priority) ∧
      (u.completed = none → (spreadMerge t u).completed = t.completed) ∧
      (u.createdAt = none → (spreadMerge t u).createdAt = t.createdAt) := by
  refine ⟨rfl, by simp [updateTask, saveTasks, getTasks], ?_, ?_⟩
  · intro i hi
    refine ⟨tasks[i],
      if tasks[i].id = taskId then spreadMerge tasks[i] { completed := some true }
      else tasks[i],
      List.getElem?_eq_getElem hi, ?_, ?_⟩
    · show (List.map _ tasks)[i]? = _
      rw [List.getElem?_map, List.getElem?_eq_getElem hi]
      rfl
    · by_cases h : tasks[i].id = taskId <;> simp [h, spreadMerge]
  · intro t u
    refine ⟨?_, ?_, ?_, ?_, ?_, ?_, ?_, ?_⟩ <;> intro h <;> simp [spreadMerge, h]

/-- Claim C9: the output of `sortByPriority` is a permutation of its input —
exactly the same task records with the same multiplicities, none dropped,
duplicated or modified.  (The source sorts a spread copy `[...tasks]`, so the
input itself is untouched; the embedding is pure.) -/
theorem C9_sortByPriority_perm (tasks : List Task) :
    (sortByPriority tasks).Perm tasks ∧
    ∀ t : Task, (sortByPriority tasks).count t = tasks.count t :=
  ⟨List.perm_insertionSort taskLe tasks,
   fun t => (List.perm_insertionSort taskLe tasks).count_eq t⟩

/-- Counterexample to claim C10 as stated: `"Constructor"` is an unrecognized
string (its lowercase form is none of high/medium/low), so the claim says it
receives rank 4; but the source lookup of `"constructor"` finds the inherited
`Object.prototype.constructor`, a truthy object, so `|| 4` never applies and
the comparator operand is that object (numeric coercion NaN), not the number
4.  Likewise for `"__proto__"`. -/
theorem C10_rank_counterexample :
    jsToLower "Constructor" = "constructor" ∧
    priorityLookup (some "Constructor") = PrioLookup.exotic ∧
    priorityOperand (some "Constructor") = none ∧
    priorityLookup (some "__proto__") = PrioLookup.exotic ∧
    priorityOperand (some "__proto__") = none := by
  decide

/-- Claim C10, amended: the lookup feeding `sortByPriority`'s comparator is
case-insensitive — any capitalization of high/medium/low yields the operand
1/2/3 — a missing priority yields the fallback 4, and any unrecognized string
yields the fallback 4 **except** when its lowercase form is an inherited
`Object.prototype` key (`constructor`, `__proto__`), in which case the
lookup returns a truthy inherited object (numeric coercion NaN) instead of
4.  The lookup is a total function, so it never fails. -/
theorem C10_rank_case_insensitive :
    (∀ s : String,
      (jsToLower s = "high" → priorityOperand (some s) = some 1) ∧
      (jsToLower s = "medium" → priorityOperand (some s) = some 2) ∧
      (jsToLower s = "low" → priorityOperand (some s) = some 3) ∧
      (jsToLower s ≠ "high" → jsToLower s ≠ "medium" → jsToLower s ≠ "low" →
        jsToLower s ≠ "constructor" → jsToLower s ≠ "__proto__" →
        priorityOperand (some s) = some 4) ∧
      (jsToLower s = "constructor" ∨ jsToLower s = "__proto__" →
        priorityOperand (some s) = none)) ∧
    priorityOperand none = some 4 := by
  refine ⟨fun s => ⟨fun h => ?_, fun h => ?_, fun h => ?_,
    fun h1 h2 h3 h4 h5 => ?_, fun h => ?_⟩, rfl⟩
  · simp [priorityOperand, priorityLookup, h]
  · simp [priorityOperand, priorityLookup, h]
  · simp [priorityOperand, priorityLookup, h]
  · simp [priorityOperand, priorityLookup, h1, h2, h3, h4, h5]
  · rcases h with h | h <;> simp [priorityOperand, priorityLookup, h]

/-- Witness for the amended C10 at concrete capitalizations, an unrecognized
value, and a prototype-chain hit. -/
theorem C10_rank_case_insensitive_witness :
    priorityOperand (some "HIGH") = some 1 ∧
    priorityOperand (some "Medium") = some 2 ∧
    priorityOperand (some "low") = some 3 ∧
    priorityOperand (some "Urgent") = some 4 ∧
    priorityOperand (some "Constructor") = none :=
  ⟨(C10_rank_case_insensitive.1 "HIGH").1 (by decide),
   (C10_rank_case_insensitive.1 "Medium").2.1 (by decide),
   (C10_rank_case_insensitive.1 "low").2.2.1 (by decide),
   (C10_rank_case_insensitive.1 "Urgent").2.2.2.1 (by decide) (by decide)
     (by decide) (by decide) (by decide),
   (C10_rank_case_insensitive.1 "Constructor").2.2.2.2 (Or.inl (by decide))⟩

/-- `Math.round` of a value in `[0, 100]` stays in `[0, 100]`. -/
theorem jsRound_bounds {q : ℚ} (h0 : 0 ≤ q) (h1 : q ≤ 100) :
    0 ≤ jsRound q ∧ jsRound q ≤ 100 := by
  constructor
  · exact Int.le_floor.mpr (by push_cast; linarith)
  · have h2 : jsRound q < 101 := Int.floor_lt.mpr (by push_cast; linarith)
    omega

theorem jsRound_zero : jsRound 0 = 0 := by
  rw [jsRound]
  rw [Int.floor_eq_iff]
  norm_num

theorem jsRound_hundred : jsRound 100 = 100 := by
  rw [jsRound]
  rw [Int.floor_eq_iff]
  norm_num

/-- Claim C5: `calculateProgress` equals `round(100 * completedCount /
totalCount)` (round half up, JS `Math.round`) for every non-empty task list
and is a defined 0 for the empty list; for every task list the result is an
integer in [0, 100], equal to 0 when no task is completed and to 100 when
all tasks of a non-empty list are completed. -/
theorem C5_calculateProgress (tasks : List Task) :
    (tasks = [] → calculateProgress tasks = 0) ∧
    (tasks ≠ [] → calculateProgress tasks =
      jsRound (100 * ((tasks.filter fun t => t.completed).length : ℚ) /
        (tasks.length : ℚ))) ∧
    0 ≤ calculateProgress tasks ∧ calculateProgress tasks ≤ 100 ∧
    ((∀ t ∈ tasks, t.completed = false) → calculateProgress tasks = 0) ∧
    (tasks ≠ [] → (∀ t ∈ tasks, t.completed = true) →
      calculateProgress tasks = 100) := by
  by_cases hnil : tasks = []
  · subst hnil
    exact ⟨fun _ => rfl, fun h => absurd rfl h, by decide, by decide,
      fun _ => rfl, fun h => absurd rfl h⟩
  · have hn0 : tasks.length ≠ 0 := fun h => hnil (List.length_eq_zero.mp h)
    have hnQ : (0 : ℚ) < (tasks.length : ℚ) := by
      exact_mod_cast Nat.pos_of_ne_zero hn0
    have hcn : (tasks.filter fun t => t.completed).length ≤ tasks.length :=
      List.length_filter_le _ tasks
    have hcalc : calculateProgress tasks =
        jsRound ((((tasks.filter fun t => t.completed).length : ℚ) /
          (tasks.length : ℚ)) * 100) := by
      rw [calculateProgress, if_neg hn0]
    have hq0 : (0 : ℚ) ≤
        (((tasks.filter fun t => t.completed).length : ℚ) /
          (tasks.length : ℚ)) * 100 := by positivity
    have hq100 :
        (((tasks.filter fun t => t.completed).length : ℚ) /
          (tasks.length : ℚ)) * 100 ≤ 100 := by
      have h1 : ((tasks.filter fun t => t.completed).length : ℚ) /
          (tasks.length : ℚ) ≤ 1 := by
        rw [div_le_one hnQ]
        exact_mod_cast hcn
      nlinarith
    refine ⟨fun h => absurd h hnil, fun _ => ?_, ?_, ?_, fun h => ?_, fun _ hall => ?_⟩
    · rw [hcalc]
      exact congrArg jsRound (by ring)
    · rw [hcalc]
      exact (jsRound_bounds hq0 hq100).1
    · rw [hcalc]
      exact (jsRound_bounds hq0 hq100).2
    · have hfil : (tasks.filter fun t => t.completed) = [] :=
        List.filter_eq_nil_iff.mpr fun t ht => by simp [h t ht]
      rw [hcalc, hfil]
      simpa using jsRound_zero
    · have hfil : (tasks.filter fun t => t.completed) = tasks :=
        List.filter_eq_self.mpr fun t ht => hall t ht
      rw [hcalc, hfil, div_self (ne_of_gt hnQ), one_mul]
      exact jsRound_hundred

/-- Claim C7: `getMotivationalMessage` is a fixed six-tier ladder on the
percent value with thresholds 100, ≥75, ≥50, ≥25, >0, else, each tier a fixed
icon/message pair; every boundary is closed on the lower value of its tier:
the message at 100 differs from the one at 99, and 75, 50, 25 select the
≥75, ≥50, ≥25 tiers (the same pair as at 99, 74, 49 respectively), not the
adjacent lower tier. -/
theorem C7_motivation_ladder (p : ℤ) :
    (p = 100 →
      getMotivationalMessage p = ⟨"🏆", "Perfect! You\x27ve completed all tasks!"⟩) ∧
    (p ≠ 100 → 75 ≤ p →
      getMotivationalMessage p = ⟨"🔥", "Almost there! Keep pushing!"⟩) ∧
    (p < 75 → 50 ≤ p →
      getMotivationalMessage p = ⟨"💪", "Great progress! Stay focused!"⟩) ∧
    (p < 50 → 25 ≤ p →
      getMotivationalMessage p = ⟨"📈", "Good start! Keep going!"⟩) ∧
    (p < 25 → 0 < p →
      getMotivationalMessage p = ⟨"🚀", "You\x27ve started! Let\x27s build momentum!"⟩) ∧
    (p ≤ 0 →
      getMotivationalMessage p = ⟨"📋", "Add tasks to start tracking progress!"⟩) ∧
    getMotivationalMessage 100 ≠ getMotivationalMessage 99 ∧
    getMotivationalMessage 75 = getMotivationalMessage 99 ∧
    getMotivationalMessage 75 ≠ getMotivationalMessage 74 ∧
    getMotivationalMessage 50 = getMotivationalMessage 74 ∧
    getMotivationalMessage 50 ≠ getMotivationalMessage 49 ∧
    getMotivationalMessage 25 = getMotivationalMessage 49 ∧
    getMotivationalMessage 25 ≠ getMotivationalMessage 24 := by
  refine ⟨?_, ?_, ?_, ?_, ?_, ?_,
    by decide, by decide, by decide, by decide, by decide, by decide, by decide⟩
  · intro h
    rw [getMotivationalMessage, if_pos h]
  · intro h1 h2
    rw [getMotivationalMessage, if_neg h1, if_pos h2]
  · intro h1 h2
    rw [getMotivationalMessage, if_neg (by omega), if_neg (by omega), if_pos h2]
  · intro h1 h2
    rw [getMotivationalMessage, if_neg (by omega), if_neg (by omega),
      if_neg (by omega), if_pos h2]
  · intro h1 h2
    rw [getMotivationalMessage, if_neg (by omega), if_neg (by omega),
      if_neg (by omega), if_neg (by omega), if_pos h2]
  · intro h
    rw [getMotivationalMessage, if_neg (by omega), if_neg (by omega),
      if_neg (by omega), if_neg (by omega), if_neg (by omega)]

/-- Counterexample to claim C6 as stated: the form input with subject `Math`,
topic `Algebra` and study time `"Infinity"` passes `validateForm` (deadline
at the start of today), yet `"Infinity"` does not parse to a *finite* number:
`isNaN("Infinity")` is false and `parseFloat("Infinity")` is `+Infinity`,
which is `> 0`, so the finiteness required by the claim is never checked. -/
theorem C6_validation_counterexample :
    formIsValid (validateForm "Math" "Algebra" "Infinity" 0 0) = true ∧
    jsNumber "Infinity" = JsNum.posInf ∧
    jsParseFloat "Infinity" = JsNum.posInf :=
  ⟨by decide, by decide, by decide⟩

/-- Claim C6, amended: `validateForm` accepts exactly when subject and topic
are non-empty after trim, the study time is non-empty after trim with
`Number(studyTime)` not NaN and `parseFloat(studyTime)` not `<= 0` (which
admits the non-finite value `+Infinity`), and the deadline is not before the
start of the current local calendar day; and the per-field error mapping can
report multiple invalid fields simultaneously (here all four at once). -/
theorem C6_validateForm_amended :
    (∀ (subject topic studyTime : String) (deadline todayStart : ℤ),
      formIsValid (validateForm subject topic studyTime deadline todayStart) = true ↔
        (jsTrim subject ≠ "" ∧ jsTrim topic ≠ "" ∧ jsTrim studyTime ≠ "" ∧
          jsIsNaN (jsNumber studyTime) = false ∧
          jsLeZero (jsParseFloat studyTime) = false ∧ todayStart ≤ deadline)) ∧
    (validateForm "" "" "abc" (-1) 0).subject.isSome = true ∧
    (validateForm "" "" "abc" (-1) 0).topic.isSome = true ∧
    (validateForm "" "" "abc" (-1) 0).studyTime.isSome = true ∧
    (validateForm "" "" "abc" (-1) 0).deadline.isSome = true := by
  refine ⟨fun subject topic studyTime deadline todayStart => ?_,
    by decide, by decide, by decide, by decide⟩
  simp only [validateForm, formIsValid, Bool.and_eq_true, Option.isNone_iff_eq_none]
  split_ifs <;> simp_all
  rename_i hor hle
  rcases hor with h | h <;> simp [h]

end SSP
